import Mathlib

/-!
Verification of the topic-classification / spoiler-partitioning / response-composition
core of the gaming-chatbot repository.

The Python sources embedded here:
* `backend/services/plot_processing.py` — `clean_plot_text`, `split_plot_sections`,
  `extract_spoiler_free` (regex passes are modelled as explicit character scans with
  the same match semantics);
* `backend/main.py` — the `Response` pydantic model and `enforce_output_rules`;
* `backend/formatters/response_formatter.py` — `format_response`.

Python strings are modelled as Lean `String` (ASCII case folding, as all the
fixed keyword tables are ASCII); `str.lower`, `str.strip`, substring `in`,
`str.split` and the three `re.sub` passes are defined below.
-/

namespace Chatbot

/-- ASCII model of Python's whitespace class (`str.strip`, `\s`). -/
def isPySpace (c : Char) : Bool :=
  c = ' ' || c = '\t' || c = '\n' || c = '\r' || c = '\x0b' || c = '\x0c'

/-- Python `str.strip()` on a character list: drop whitespace from both ends. -/
def stripList (cs : List Char) : List Char :=
  List.rdropWhile isPySpace (List.dropWhile isPySpace cs)

/-- Python `str.strip()`. -/
def pyStrip (s : String) : String :=
  (stripList s.toList).asString

/-- Python `str.lower()` (ASCII range; the keyword tables are all ASCII). -/
def pyLower (s : String) : String :=
  (s.toList.map Char.toLower).asString

/-- `needle.isPrefixOf hay` on char lists, spelled out for the scanner below. -/
def listIsSub : List Char → List Char → Bool
  | n, [] => n.isEmpty
  | n, c :: t => n.isPrefixOf (c :: t) || listIsSub n t

/-- Python substring test `needle in hay`. -/
def pyIn (needle hay : String) : Bool :=
  listIsSub needle.toList hay.toList

/-- Python `" ".join`. -/
def joinSpace : List String → String
  | [] => ""
  | [x] => x
  | x :: y :: xs => x ++ " " ++ joinSpace (y :: xs)

/-- Python `". ".join`. -/
def joinDotSpace : List String → String
  | [] => ""
  | [x] => x
  | x :: y :: xs => x ++ ". " ++ joinDotSpace (y :: xs)

/-- Python `"\n\n".join`. -/
def joinBlank : List String → String
  | [] => ""
  | [x] => x
  | x :: y :: xs => x ++ "\n\n" ++ joinBlank (y :: xs)

/-- Is `c` an ASCII digit (regex `\d` over the ASCII model)? -/
def isAsciiDigit (c : Char) : Bool :=
  '0' ≤ c && c ≤ '9'

/-- Scanner for `re.sub(r"\[\d+\]", "", text)`.  The first argument is the
pending tentative match (`'['` plus the digits seen so far, reversed); on a
character that can not extend the match the pending text is literal output and
scanning resumes, exactly like the regex engine advancing its start position. -/
def citAux : Option (List Char) → List Char → List Char
  | none, [] => []
  | some buf, [] => buf.reverse
  | none, c :: rest =>
    if c = '[' then citAux (some [c]) rest else c :: citAux none rest
  | some buf, c :: rest =>
    if isAsciiDigit c then citAux (some (c :: buf)) rest
    else if c = ']' && buf.length ≥ 2 then citAux none rest
    else buf.reverse ++ (if c = '[' then citAux (some [c]) rest else c :: citAux none rest)

/-- `re.sub(r"\[\d+\]", "", text)`: remove citation markers. -/
def remCitations (cs : List Char) : List Char :=
  citAux none cs

/-- State of the whitespace-collapsing scan: nothing pending, exactly one
pending whitespace character, or a pending run of two or more. -/
inductive WsState where
  | start : WsState
  | one : Char → WsState
  | run : WsState

/-- Scanner for `re.sub(r"\s{2,}", " ", text)`: a maximal whitespace run of
length at least two becomes a single space, a lone whitespace char survives. -/
def collapseAux : WsState → List Char → List Char
  | .start, [] => []
  | .one c, [] => [c]
  | .run, [] => [' ']
  | .start, c :: rest =>
    if isPySpace c then collapseAux (.one c) rest else c :: collapseAux .start rest
  | .one p, c :: rest =>
    if isPySpace c then collapseAux .run rest else p :: c :: collapseAux .start rest
  | .run, c :: rest =>
    if isPySpace c then collapseAux .run rest else ' ' :: c :: collapseAux .start rest

/-- `re.sub(r"\s{2,}", " ", text)`. -/
def collapseWs (cs : List Char) : List Char :=
  collapseAux .start cs

/-- After an opening `'('`, try to match `[^)]{0,30}\)`: succeed iff a `')'`
occurs with at most 30 characters before it, returning the remainder after it.
Fuel 31 admits the close paren at offsets 0..30. -/
def parenScan : Nat → List Char → Option (List Char)
  | _, [] => none
  | 0, _ => none
  | Nat.succ f, c :: rest => if c = ')' then some rest else parenScan f rest

/-- Fuelled scanner for `re.sub(r"\([^)]{0,30}\)", "", text)`; the fuel is an
upper bound on the remaining length, consumed at least one per step. -/
def remParensF : Nat → List Char → List Char
  | 0, cs => cs
  | Nat.succ _, [] => []
  | Nat.succ f, c :: rest =>
    if c = '(' then
      match parenScan 31 rest with
      | some rest2 => remParensF f rest2
      | none => c :: remParensF f rest
    else c :: remParensF f rest

/-- `re.sub(r"\([^)]{0,30}\)", "", text)`: drop short parenthetical asides. -/
def remParens (cs : List Char) : List Char :=
  remParensF cs.length cs

/-- `plot_processing.clean_plot_text`: strip citations, collapse whitespace
runs, drop short parentheticals, then strip the ends. -/
def clean_plot_text (text : String) : String :=
  pyStrip (remParens (collapseWs (remCitations text.toList))).asString

/-- Terminal punctuation for the sentence splitter (regex class `[.!?]`). -/
def isTermPunct (c : Char) : Bool :=
  c = '.' || c = '!' || c = '?'

/-- Scanner for `re.split(r'(?<=[.!?]) +', text)`.  First argument: are we
inside a separator run of spaces?  Second: current segment, reversed. -/
def splitSentAux : Bool → List Char → List Char → List (List Char)
  | _, acc, [] => [acc.reverse]
  | true, acc, c :: rest =>
    if c = ' ' then splitSentAux true acc rest
    else splitSentAux false (c :: acc) rest
  | false, acc, c :: rest =>
    if c = ' ' then
      match acc with
      | p :: _ =>
        if isTermPunct p then acc.reverse :: splitSentAux true [] rest
        else splitSentAux false (c :: acc) rest
      | [] => splitSentAux false (c :: acc) rest
    else splitSentAux false (c :: acc) rest

/-- `re.split(r'(?<=[.!?]) +', text)` as used by `split_plot_sections`. -/
def splitSentences (text : String) : List String :=
  (splitSentAux false [] text.toList).map List.asString

/-- `plot_processing.split_plot_sections`: fewer than 4 sentences returns the
text whole, otherwise thirds at `n // 3` and `(2 * n) // 3`. -/
def split_plot_sections (text : String) : String × String × String :=
  let sentences := splitSentences text
  if sentences.length < 4 then (text, "", "")
  else
    let n := sentences.length
    let early := sentences.take (max 1 (n / 3))
    let mid := (sentences.drop (n / 3)).take (2 * n / 3 - n / 3)
    let late := sentences.drop (2 * n / 3)
    (pyStrip (joinSpace early), pyStrip (joinSpace mid), pyStrip (joinSpace late))

/-- Python `text.split(".")` on a char list. -/
def splitOnDot : List Char → List (List Char)
  | [] => [[]]
  | c :: rest =>
    if c = '.' then [] :: splitOnDot rest
    else
      match splitOnDot rest with
      | s :: ss => (c :: s) :: ss
      | [] => [[c]]

/-- Python `text.split(".")`. -/
def splitOnDotStr (s : String) : List String :=
  (splitOnDot s.toList).map List.asString

/-- `twist_markers` of `extract_spoiler_free` (verbatim from the source). -/
def twist_markers : List String :=
  ["betray", "twist", "reveals", "secret", "dies", "death", "kills", "final", "ending", "confronts"]

/-- The `for sentence in mid.split("."):` loop of `extract_spoiler_free`:
skip sentences that strip to nothing or contain a twist marker
(case-insensitively), collect the rest stripped. -/
def collectSafeMid : List String → List String
  | [] => []
  | sentence :: rest =>
    let s := pyLower (pyStrip sentence)
    if s = "" then collectSafeMid rest
    else if twist_markers.any (fun w => pyIn w s) then collectSafeMid rest
    else pyStrip sentence :: collectSafeMid rest

/-- `plot_processing.extract_spoiler_free`: early third plus at most two
marker-free mid sentences; the late third is dropped. -/
def extract_spoiler_free (text : String) : String :=
  let t := clean_plot_text text
  let parts := split_plot_sections t
  let early := parts.1
  let mid := parts.2.1
  let safe_mid := pyStrip (joinDotSpace ((collectSafeMid (splitOnDotStr mid)).take 2))
  pyStrip (early ++ (if safe_mid ≠ "" then " " ++ safe_mid else ""))

/-- The pydantic `Response` model of `backend/main.py`; every text field
defaults to the empty string, mirroring the Python defaults.  The schema is
closed by construction, so the Python step 5 (deleting extraneous `__dict__`
entries) is the identity here. -/
structure Response where
  summary : String := ""
  spoilers : String := ""
  no_spoilers : String := ""
  game_tips : String := ""
  lore : String := ""
  warning : String := ""
  rawg_data : String := ""
  game_length : String := ""
  wiki_data : String := ""
  can_be_spoiler : Bool := false
  topic : String := ""
deriving DecidableEq, Repr

/-- `length_keywords` of `enforce_output_rules` (verbatim). -/
def length_keywords : List String :=
  ["long", "short", "hours", "time to beat", "how long", "length"]

/-- `spoiler_trigger_words` of `enforce_output_rules` (verbatim). -/
def spoiler_trigger_words : List String :=
  ["kills", "dies", "death", "betray", "twist", "ending", "final boss", "reveals"]

/-- `any(word in s.lower() for word in spoiler_trigger_words)`. -/
def containsTrigger (s : String) : Bool :=
  spoiler_trigger_words.any (fun w => pyIn w (pyLower s))

/-- The length-interest override that opens `enforce_output_rules`: a length
keyword in the query forces `topic = "metadata"` when the current topic is
empty (Python `""`/`None`) or the `"summary"` placeholder. -/
def lengthOverrideStep (p : Response) (user_query : String) : Response :=
  if length_keywords.any (fun w => pyIn w (pyLower user_query)) then
    if p.topic = "" ∨ p.topic = "summary" then { p with topic := "metadata" } else p
  else p

/-- Step 1 of `enforce_output_rules`: the fixed-priority keyword ladder over
the lowercased query, entered only when `topic` is still empty; on no match
the topic stays empty. -/
def classifyTopic (uq : String) : String :=
  if ["release", "platform", "developer", "engine", "rating", "metacritic"].any
      (fun w => pyIn w uq) then "metadata"
  else if pyIn "character" uq then "characters"
  else if pyIn "lore" uq || pyIn "world" uq then "lore"
  else if pyIn "dlc" uq || pyIn "expansion" uq then "dlc"
  else if pyIn "ending" uq || pyIn "spoil" uq then "spoilers"
  else if pyIn "story" uq || pyIn "plot" uq then "plot"
  else if pyIn "gameplay" uq || pyIn "mechanic" uq || pyIn "combat" uq then "gameplay"
  else if ["how to", "beat", "solve", "puzzle", "tips", "guide"].any
      (fun w => pyIn w uq) then "tips"
  else ""

/-- Step 1 applied to the record. -/
def classifyStep (p : Response) (user_query : String) : Response :=
  if p.topic = "" then { p with topic := classifyTopic (pyLower user_query) } else p

/-- Step 2 of `enforce_output_rules`: when `no_spoilers` holds a trigger term,
move it onto `spoilers` (newline-joined, stripped), clear it, and default the
warning. -/
def spoilerMoveStep (p : Response) : Response :=
  if p.no_spoilers ≠ "" ∧ containsTrigger p.no_spoilers then
    { p with
      spoilers := pyStrip (p.spoilers ++ "\n" ++ p.no_spoilers)
      no_spoilers := ""
      warning := if p.warning = "" then "Contains major spoilers" else p.warning }
  else p

/-- Step 3 of `enforce_output_rules`: spoilers present without a warning get
the fixed advisory string. -/
def warnStep (p : Response) : Response :=
  if p.spoilers ≠ "" ∧ p.warning = "" then
    { p with warning := "Contains major spoilers" }
  else p

/-- Step 4 of `enforce_output_rules`: for `topic == "plot"` re-filter a
non-empty `no_spoilers` through `extract_spoiler_free`. -/
def plotRefilterStep (p : Response) : Response :=
  if p.topic = "plot" ∧ p.no_spoilers ≠ "" then
    { p with no_spoilers := extract_spoiler_free p.no_spoilers }
  else p

/-- `backend/main.py`'s `enforce_output_rules` as the composition of its
sequential stages (step 5, schema closure, is the identity on the closed
`Response` structure). -/
def enforce_output_rules (parsed : Response) (user_query : String) : Response :=
  plotRefilterStep (warnStep (spoilerMoveStep (classifyStep (lengthOverrideStep parsed user_query) user_query)))

/-- Provenance tags for the text blocks `format_response` accumulates, so the
placement rules can be stated; `format_response` erases them. -/
inductive Block where
  | metaTop : Block
  | lenTop : Block
  | summaryB : Block
  | plotB : Block
  | warnB : Block
  | fullPlotB : Block
  | loreB : Block
  | tipsB : Block
  | wikiB : Block
  | infoBottom : Block
  | lenBottom : Block
deriving DecidableEq, Repr

/-- The metadata-topic header of `format_response`: RAWG line then length
line, both stripped, only for `topic == "metadata"`. -/
def topBlocks (data : Response) : List (Block × String) :=
  if data.topic = "metadata" then
    (if data.rawg_data ≠ "" then [(Block.metaTop, pyStrip data.rawg_data)] else []) ++
    (if data.game_length ≠ "" then [(Block.lenTop, pyStrip data.game_length)] else [])
  else []

/-- The topic-independent middle of `format_response`: summary, spoiler-free
plot, warning + spoilers, lore, tips, wiki extract (non-plot topics only). -/
def midBlocks (data : Response) : List (Block × String) :=
  (if data.summary ≠ "" then [(Block.summaryB, pyStrip data.summary)] else []) ++
  (if data.no_spoilers ≠ "" then
    [(Block.plotB, "**Plot:**\n" ++ pyStrip data.no_spoilers)] else []) ++
  (if data.spoilers ≠ "" then
    (if data.warning ≠ "" then [(Block.warnB, "**" ++ data.warning ++ "**")] else []) ++
    [(Block.fullPlotB, "**Full Plot:**\n" ++ pyStrip data.spoilers)]
  else []) ++
  (if data.lore ≠ "" then [(Block.loreB, "**Lore:**\n" ++ pyStrip data.lore)] else []) ++
  (if data.game_tips ≠ "" then [(Block.tipsB, "**Tips:**\n" ++ pyStrip data.game_tips)] else []) ++
  (if data.wiki_data ≠ "" ∧ data.topic ≠ "plot" ∧ data.topic ≠ "spoilers" then
    [(Block.wikiB, "**From Wiki:**\n" ++ pyStrip data.wiki_data)] else [])

/-- The non-metadata footer of `format_response`: labelled Info line, then the
length line for topics outside `{plot, spoilers}`. -/
def bottomBlocks (data : Response) : List (Block × String) :=
  if data.topic ≠ "metadata" then
    (if data.rawg_data ≠ "" then
      [(Block.infoBottom, "**Info:** " ++ pyStrip data.rawg_data)] else []) ++
    (if data.game_length ≠ "" ∧ data.topic ≠ "plot" ∧ data.topic ≠ "spoilers" then
      [(Block.lenBottom, pyStrip data.game_length)] else [])
  else []

/-- The full `lines` list of `format_response`, in emission order. -/
def formatBlocks (data : Response) : List (Block × String) :=
  topBlocks data ++ midBlocks data ++ bottomBlocks data

/-- `backend/formatters/response_formatter.py`'s `format_response`: join the
blocks whose text strips non-empty with blank lines and strip the result. -/
def format_response (data : Response) : String :=
  pyStrip (joinBlank (((formatBlocks data).map Prod.snd).filter (fun x => pyStrip x ≠ "")))

/-! ### Definitions supporting individual claims -/

/-- A draft record with every field at its default. -/
def emptyDraft : Response := {}

/-- A plot-topic draft whose `no_spoilers` passes the trigger scan only
because a citation marker interrupts the word `dies`; `clean_plot_text`
inside the plot re-filter removes the marker and re-exposes the trigger. -/
def rPlotLeak : Response :=
  { topic := "plot", no_spoilers := "The hero die[1]s early. Aa bb. Cc dd. Ee ff." }

/-- The `extract_spoiler_free` mid-section loop as the claim words it:
discard a sentence exactly when it contains a term of the Policy Enforcer's
`spoiler_trigger_words` list (instead of the source's `twist_markers`). -/
def collectSafeMidClaimed : List String → List String
  | [] => []
  | sentence :: rest =>
    let s := pyLower (pyStrip sentence)
    if s = "" then collectSafeMidClaimed rest
    else if spoiler_trigger_words.any (fun w => pyIn w s) then collectSafeMidClaimed rest
    else pyStrip sentence :: collectSafeMidClaimed rest

/-- `extract_spoiler_free` as claim C6 describes it: identical extraction
pipeline, but filtering mid sentences against the Policy Enforcer's
spoiler-trigger list rather than the source's `twist_markers`. -/
def extract_spoiler_free_claimed (text : String) : String :=
  let t := clean_plot_text text
  let parts := split_plot_sections t
  let early := parts.1
  let mid := parts.2.1
  let safe_mid := pyStrip (joinDotSpace ((collectSafeMidClaimed (splitOnDotStr mid)).take 2))
  pyStrip (early ++ (if safe_mid ≠ "" then " " ++ safe_mid else ""))

/-- An input whose single mid sentence contains `"secret"` — a term of the
source's `twist_markers` but not of the Policy Enforcer's trigger list. -/
def secretText : String := "Aa bb. The secret room opens. Cc dd. Ee ff."

/-- The mid-sentence selection of `extract_spoiler_free`, reformulated
declaratively: strip each period-separated piece, keep exactly the non-empty
ones free of `twist_markers` terms, and take the first two. -/
def midKeptSentences (mid : String) : List String :=
  (((splitOnDotStr mid).map pyStrip).filter
    (fun t => !(t == "") && !(twist_markers.any (fun w => pyIn w (pyLower t))))).take 2

/-- `extract_spoiler_free` as amended claim C6 describes it: keep the early
third, append up to two surviving mid sentences (joined by `". "`), and drop
the late third. -/
def extract_spoiler_free_described (text : String) : String :=
  let t := clean_plot_text text
  let parts := split_plot_sections t
  let early := parts.1
  let mid := parts.2.1
  let safe_mid := pyStrip (joinDotSpace (midKeptSentences mid))
  pyStrip (early ++ (if safe_mid ≠ "" then " " ++ safe_mid else ""))

/-! ### String-level helper lemmas -/

theorem dropWhile_rdropWhile_dropWhile {α : Type*} (p : α → Bool) (l : List α) :
    List.dropWhile p (List.rdropWhile p (List.dropWhile p l)) =
      List.rdropWhile p (List.dropWhile p l) := by
  cases hr : List.rdropWhile p (List.dropWhile p l) with
  | nil => rfl
  | cons c cr =>
    obtain ⟨t, ht⟩ := List.rdropWhile_prefix p (List.dropWhile p l)
    rw [hr] at ht
    have hm : List.dropWhile p l = c :: (cr ++ t) := by
      rw [← ht]
      rfl
    have h0 : 0 < (List.dropWhile p l).length := by
      rw [hm]
      simp
    have hnp : ¬ p c = true := by
      have hz := List.dropWhile_get_zero_not p l h0
      simpa [hm] using hz
    rw [List.dropWhile_cons_of_neg hnp]

theorem stripList_idem (cs : List Char) : stripList (stripList cs) = stripList cs := by
  unfold stripList
  rw [dropWhile_rdropWhile_dropWhile, List.rdropWhile_idempotent]

theorem toList_eq_nil_iff (s : String) : s.toList = [] ↔ s = "" := by
  cases s with
  | mk d =>
    constructor
    · intro h
      have hd : d = [] := h
      rw [hd]
    · intro h
      rw [h]
      rfl

theorem pyStrip_idem (s : String) : pyStrip (pyStrip s) = pyStrip s := by
  show (stripList (stripList s.toList)).asString = (stripList s.toList).asString
  rw [stripList_idem]

theorem pyLower_eq_empty_iff (t : String) : pyLower t = "" ↔ t = "" := by
  rw [← toList_eq_nil_iff, ← toList_eq_nil_iff t]
  show t.toList.map Char.toLower = [] ↔ t.toList = []
  simp

theorem containsTrigger_empty : containsTrigger "" = false := by decide

/-! ### Step characterization and frame lemmas -/

/-- The topic value computed by the length-interest override, as a function. -/
def overrideTopic (t q : String) : String :=
  if length_keywords.any (fun w => pyIn w (pyLower q)) ∧ (t = "" ∨ t = "summary") then
    "metadata"
  else t

theorem lengthOverrideStep_eq (p : Response) (q : String) :
    lengthOverrideStep p q = { p with topic := overrideTopic p.topic q } := by
  unfold lengthOverrideStep overrideTopic
  split_ifs <;> first | rfl | tauto

theorem classifyStep_eq (p : Response) (q : String) :
    classifyStep p q =
      { p with topic := if p.topic = "" then classifyTopic (pyLower q) else p.topic } := by
  unfold classifyStep
  split <;> rfl

theorem overrideTopic_idem (t q : String) :
    overrideTopic (overrideTopic t q) q = overrideTopic t q := by
  unfold overrideTopic
  split_ifs <;> rfl

theorem overrideTopic_ne_empty (t q : String) (h : t ≠ "") : overrideTopic t q ≠ "" := by
  unfold overrideTopic
  split
  · decide
  · exact h

theorem overrideTopic_ne_plot (t q : String) (h : t ≠ "plot") : overrideTopic t q ≠ "plot" := by
  unfold overrideTopic
  split
  · decide
  · exact h

@[simp] theorem spoilerMoveStep_topic (p : Response) : (spoilerMoveStep p).topic = p.topic := by
  unfold spoilerMoveStep
  split <;> rfl

@[simp] theorem spoilerMoveStep_summary (p : Response) :
    (spoilerMoveStep p).summary = p.summary := by
  unfold spoilerMoveStep
  split <;> rfl

@[simp] theorem spoilerMoveStep_game_tips (p : Response) :
    (spoilerMoveStep p).game_tips = p.game_tips := by
  unfold spoilerMoveStep
  split <;> rfl

@[simp] theorem spoilerMoveStep_lore (p : Response) : (spoilerMoveStep p).lore = p.lore := by
  unfold spoilerMoveStep
  split <;> rfl

@[simp] theorem spoilerMoveStep_rawg_data (p : Response) :
    (spoilerMoveStep p).rawg_data = p.rawg_data := by
  unfold spoilerMoveStep
  split <;> rfl

@[simp] theorem spoilerMoveStep_game_length (p : Response) :
    (spoilerMoveStep p).game_length = p.game_length := by
  unfold spoilerMoveStep
  split <;> rfl

@[simp] theorem spoilerMoveStep_wiki_data (p : Response) :
    (spoilerMoveStep p).wiki_data = p.wiki_data := by
  unfold spoilerMoveStep
  split <;> rfl

@[simp] theorem spoilerMoveStep_can_be_spoiler (p : Response) :
    (spoilerMoveStep p).can_be_spoiler = p.can_be_spoiler := by
  unfold spoilerMoveStep
  split <;> rfl

@[simp] theorem warnStep_topic (p : Response) : (warnStep p).topic = p.topic := by
  unfold warnStep
  split <;> rfl

@[simp] theorem warnStep_summary (p : Response) : (warnStep p).summary = p.summary := by
  unfold warnStep
  split <;> rfl

@[simp] theorem warnStep_spoilers (p : Response) : (warnStep p).spoilers = p.spoilers := by
  unfold warnStep
  split <;> rfl

@[simp] theorem warnStep_no_spoilers (p : Response) :
    (warnStep p).no_spoilers = p.no_spoilers := by
  unfold warnStep
  split <;> rfl

@[simp] theorem warnStep_game_tips (p : Response) : (warnStep p).game_tips = p.game_tips := by
  unfold warnStep
  split <;> rfl

@[simp] theorem warnStep_lore (p : Response) : (warnStep p).lore = p.lore := by
  unfold warnStep
  split <;> rfl

@[simp] theorem warnStep_rawg_data (p : Response) : (warnStep p).rawg_data = p.rawg_data := by
  unfold warnStep
  split <;> rfl

@[simp] theorem warnStep_game_length (p : Response) :
    (warnStep p).game_length = p.game_length := by
  unfold warnStep
  split <;> rfl

@[simp] theorem warnStep_wiki_data (p : Response) : (warnStep p).wiki_data = p.wiki_data := by
  unfold warnStep
  split <;> rfl

@[simp] theorem warnStep_can_be_spoiler (p : Response) :
    (warnStep p).can_be_spoiler = p.can_be_spoiler := by
  unfold warnStep
  split <;> rfl

@[simp] theorem plotRefilterStep_topic (p : Response) :
    (plotRefilterStep p).topic = p.topic := by
  unfold plotRefilterStep
  split <;> rfl

@[simp] theorem plotRefilterStep_summary (p : Response) :
    (plotRefilterStep p).summary = p.summary := by
  unfold plotRefilterStep
  split <;> rfl

@[simp] theorem plotRefilterStep_spoilers (p : Response) :
    (plotRefilterStep p).spoilers = p.spoilers := by
  unfold plotRefilterStep
  split <;> rfl

@[simp] theorem plotRefilterStep_warning (p : Response) :
    (plotRefilterStep p).warning = p.warning := by
  unfold plotRefilterStep
  split <;> rfl

@[simp] theorem plotRefilterStep_game_tips (p : Response) :
    (plotRefilterStep p).game_tips = p.game_tips := by
  unfold plotRefilterStep
  split <;> rfl

@[simp] theorem plotRefilterStep_lore (p : Response) :
    (plotRefilterStep p).lore = p.lore := by
  unfold plotRefilterStep
  split <;> rfl

@[simp] theorem plotRefilterStep_rawg_data (p : Response) :
    (plotRefilterStep p).rawg_data = p.rawg_data := by
  unfold plotRefilterStep
  split <;> rfl

@[simp] theorem plotRefilterStep_game_length (p : Response) :
    (plotRefilterStep p).game_length = p.game_length := by
  unfold plotRefilterStep
  split <;> rfl

@[simp] theorem plotRefilterStep_wiki_data (p : Response) :
    (plotRefilterStep p).wiki_data = p.wiki_data := by
  unfold plotRefilterStep
  split <;> rfl

@[simp] theorem plotRefilterStep_can_be_spoiler (p : Response) :
    (plotRefilterStep p).can_be_spoiler = p.can_be_spoiler := by
  unfold plotRefilterStep
  split <;> rfl

theorem classifyStep_eq_self (p : Response) (q : String) (h : p.topic ≠ "") :
    classifyStep p q = p := by
  unfold classifyStep
  rw [if_neg h]

theorem spoilerMoveStep_eq_self (p : Response) (h : containsTrigger p.no_spoilers = false) :
    spoilerMoveStep p = p := by
  unfold spoilerMoveStep
  rw [if_neg]
  intro hc
  rw [h] at hc
  exact absurd hc.2 (by decide)

theorem warnStep_eq_self (p : Response) (h : p.spoilers ≠ "" → p.warning ≠ "") :
    warnStep p = p := by
  unfold warnStep
  rw [if_neg]
  intro hc
  exact h hc.1 hc.2

theorem warnStep_eq_self_of_warning (p : Response) (h : p.warning ≠ "") :
    warnStep p = p := by
  unfold warnStep
  rw [if_neg]
  intro hc
  exact h hc.2

theorem plotRefilterStep_eq_self_of_topic (p : Response) (h : p.topic ≠ "plot") :
    plotRefilterStep p = p := by
  unfold plotRefilterStep
  rw [if_neg]
  intro hc
  exact h hc.1

theorem plotRefilterStep_eq_self_of_empty (p : Response) (h : p.no_spoilers = "") :
    plotRefilterStep p = p := by
  unfold plotRefilterStep
  rw [if_neg]
  intro hc
  exact hc.2 h

theorem enforce_topic_eq (r : Response) (q : String) :
    (enforce_output_rules r q).topic =
      (if overrideTopic r.topic q = "" then classifyTopic (pyLower q)
       else overrideTopic r.topic q) := by
  unfold enforce_output_rules
  simp [classifyStep_eq, lengthOverrideStep_eq]

theorem enforce_eq_of_stable (r : Response) (q : String)
    (h1 : containsTrigger r.no_spoilers = false)
    (h2 : r.spoilers ≠ "" → r.warning ≠ "")
    (h3 : overrideTopic r.topic q ≠ "")
    (h4 : overrideTopic r.topic q ≠ "plot") :
    enforce_output_rules r q = { r with topic := overrideTopic r.topic q } := by
  unfold enforce_output_rules
  rw [lengthOverrideStep_eq]
  rw [classifyStep_eq_self { r with topic := overrideTopic r.topic q } q h3]
  rw [spoilerMoveStep_eq_self { r with topic := overrideTopic r.topic q } h1]
  rw [warnStep_eq_self { r with topic := overrideTopic r.topic q } h2]
  exact plotRefilterStep_eq_self_of_topic _ h4

theorem collectSafeMid_eq_filter (l : List String) :
    collectSafeMid l =
      (l.map pyStrip).filter
        (fun t => !(t == "") && !(twist_markers.any (fun w => pyIn w (pyLower t)))) := by
  induction l with
  | nil => rfl
  | cons x rest ih =>
    unfold collectSafeMid
    simp only [List.map_cons, List.filter_cons]
    by_cases h0 : pyLower (pyStrip x) = ""
    · have hx : pyStrip x = "" := (pyLower_eq_empty_iff _).mp h0
      rw [if_pos h0, ih, hx]
      simp
    · have hx : ¬ pyStrip x = "" := fun hh => h0 (by rw [hh]; rfl)
      rw [if_neg h0]
      by_cases hm : twist_markers.any (fun w => pyIn w (pyLower (pyStrip x))) = true
      · rw [if_pos hm, ih]
        have hp : (!(pyStrip x == "") && !(twist_markers.any (fun w => pyIn w (pyLower (pyStrip x))))) = false := by
          rw [hm]
          simp
        rw [hp]
        simp
      · rw [if_neg hm, ih]
        have hp : (!(pyStrip x == "") && !(twist_markers.any (fun w => pyIn w (pyLower (pyStrip x))))) = true := by
          rw [Bool.and_eq_true, Bool.not_eq_true', Bool.not_eq_true']
          constructor
          · exact beq_false_of_ne hx
          · exact Bool.not_eq_true _ ▸ hm
        rw [hp]
        simp

/-! ### Claim theorems -/

/-- C1, counterexample.  The claim asserts that after `enforce_output_rules`
the `no_spoilers` field never contains a spoiler-trigger term.  On
`rPlotLeak` the input `no_spoilers` is trigger-free (first conjunct), yet the
plot re-filter strips the citation marker `[1]` and the returned
`no_spoilers` contains the trigger `dies` (second conjunct). -/
theorem C1_counterexample :
    containsTrigger rPlotLeak.no_spoilers = false ∧
      containsTrigger (enforce_output_rules rPlotLeak "").no_spoilers = true := by
  constructor
  · decide
  · decide

/-- C1, amended.  After `enforce_output_rules`, whenever the resulting topic
is not `"plot"` the `no_spoilers` field contains no spoiler-trigger term
(case-insensitive substring over `spoiler_trigger_words`); when the topic is
`"plot"` the re-filter `extract_spoiler_free` may re-expose trigger terms in
the retained early third. -/
theorem C1_containment_amended (r : Response) (q : String)
    (h : (enforce_output_rules r q).topic ≠ "plot") :
    containsTrigger (enforce_output_rules r q).no_spoilers = false := by
  unfold enforce_output_rules at h ⊢
  simp only [plotRefilterStep_topic, warnStep_topic, spoilerMoveStep_topic] at h
  rw [plotRefilterStep_eq_self_of_topic _ (by simpa using h), warnStep_no_spoilers]
  set c := classifyStep (lengthOverrideStep r q) q with hcdef
  unfold spoilerMoveStep
  split
  · exact containsTrigger_empty
  · rename_i hcond
    by_cases hns : c.no_spoilers = ""
    · rw [hns]
      exact containsTrigger_empty
    · cases hb : containsTrigger c.no_spoilers
      · rfl
      · exact absurd ⟨hns, hb⟩ hcond

/-- Witness for C1 (amended): on a draft whose `no_spoilers` holds a trigger,
enforcement leaves a non-`"plot"` topic and a trigger-free `no_spoilers`. -/
theorem C1_containment_amended_witness :
    (enforce_output_rules { no_spoilers := "He dies." } "").topic ≠ "plot" ∧
      containsTrigger (enforce_output_rules { no_spoilers := "He dies." } "").no_spoilers = false :=
  ⟨by decide, C1_containment_amended { no_spoilers := "He dies." } "" (by decide)⟩

/-- C2.  Whenever the draft's `no_spoilers` contains a spoiler-trigger term,
`enforce_output_rules` clears `no_spoilers`, sets `spoilers` to the
newline-joined (and stripped) concatenation, and defaults the warning; and
Scenario A behaves exactly as the claim lists. -/
theorem C2_spoiler_move :
    (∀ (r : Response) (q : String), containsTrigger r.no_spoilers = true →
      (enforce_output_rules r q).no_spoilers = "" ∧
      (enforce_output_rules r q).spoilers = pyStrip (r.spoilers ++ "\n" ++ r.no_spoilers) ∧
      (enforce_output_rules r q).warning =
        (if r.warning = "" then "Contains major spoilers" else r.warning)) ∧
    enforce_output_rules { no_spoilers := "The hero defeats the final boss and dies." }
        "Explain the ending of Elden Ring" =
      { topic := "spoilers", no_spoilers := "",
        spoilers := "The hero defeats the final boss and dies.",
        warning := "Contains major spoilers" } := by
  constructor
  · intro r q h
    have hne : r.no_spoilers ≠ "" := by
      intro he
      rw [he, containsTrigger_empty] at h
      exact absurd h (by decide)
    unfold enforce_output_rules
    set c := classifyStep (lengthOverrideStep r q) q with hcdef
    have hcns : c.no_spoilers = r.no_spoilers := by
      simp [hcdef, classifyStep_eq, lengthOverrideStep_eq]
    have hcs : c.spoilers = r.spoilers := by
      simp [hcdef, classifyStep_eq, lengthOverrideStep_eq]
    have hcw : c.warning = r.warning := by
      simp [hcdef, classifyStep_eq, lengthOverrideStep_eq]
    have hmove : spoilerMoveStep c =
        { c with
          spoilers := pyStrip (c.spoilers ++ "\n" ++ c.no_spoilers)
          no_spoilers := ""
          warning := if c.warning = "" then "Contains major spoilers" else c.warning } := by
      unfold spoilerMoveStep
      rw [if_pos ⟨by rw [hcns]; exact hne, by rw [hcns]; exact h⟩]
    rw [hmove]
    have hw : (if c.warning = "" then "Contains major spoilers" else c.warning) ≠ "" := by
      split
      · decide
      · rename_i hcw2
        exact hcw2
    rw [warnStep_eq_self_of_warning _ hw, plotRefilterStep_eq_self_of_empty _ rfl]
    exact ⟨rfl, by rw [← hcs, ← hcns], by rw [← hcw]⟩
  · decide

/-- Witness for C2: its universal part applied to a concrete trigger-bearing
draft. -/
theorem C2_spoiler_move_witness :
    containsTrigger ({ no_spoilers := "He dies." } : Response).no_spoilers = true ∧
      (enforce_output_rules { no_spoilers := "He dies." } "q").no_spoilers = "" :=
  ⟨by decide, (C2_spoiler_move.1 { no_spoilers := "He dies." } "q" (by decide)).1⟩

/-- C3, counterexample.  The claim asserts the topic is never empty after
enforcement; on an all-default draft with query `"hello"` no keyword rule
fires and the topic stays empty. -/
theorem C3_counterexample : (enforce_output_rules emptyDraft "hello").topic = "" := by
  decide

/-- C3, amended.  After `enforce_output_rules` the topic is non-empty
provided the draft already carried a topic or the query matches at least one
rule of the fixed-priority keyword ladder; when neither holds (and no length
keyword fires) the topic remains empty. -/
theorem C3_topic_amended (r : Response) (q : String)
    (h : r.topic ≠ "" ∨ classifyTopic (pyLower q) ≠ "") :
    (enforce_output_rules r q).topic ≠ "" := by
  rw [enforce_topic_eq]
  rcases h with h | h
  · rw [if_neg (overrideTopic_ne_empty _ _ h)]
    exact overrideTopic_ne_empty _ _ h
  · by_cases ho : overrideTopic r.topic q = ""
    · rw [if_pos ho]
      exact h
    · rw [if_neg ho]
      exact ho

/-- Witness for C3 (amended): the query `"tell me the story"` matches the
`story` rule, so enforcement yields a non-empty topic. -/
theorem C3_topic_amended_witness :
    (emptyDraft.topic ≠ "" ∨ classifyTopic (pyLower "tell me the story") ≠ "") ∧
      (enforce_output_rules emptyDraft "tell me the story").topic ≠ "" :=
  ⟨Or.inr (by decide), C3_topic_amended emptyDraft "tell me the story" (Or.inr (by decide))⟩

/-- C4.  After `enforce_output_rules`, a non-empty `spoilers` field always
comes with a non-empty `warning`. -/
theorem C4_warning_pairing (r : Response) (q : String)
    (h : (enforce_output_rules r q).spoilers ≠ "") :
    (enforce_output_rules r q).warning ≠ "" := by
  unfold enforce_output_rules at h ⊢
  simp only [plotRefilterStep_spoilers, warnStep_spoilers] at h
  simp only [plotRefilterStep_warning]
  set m := spoilerMoveStep (classifyStep (lengthOverrideStep r q) q) with hmdef
  unfold warnStep
  split
  · show "Contains major spoilers" ≠ ""
    decide
  · rename_i hc
    push_neg at hc
    exact hc h

/-- Witness for C4: a draft with spoilers and no warning receives the fixed
advisory string. -/
theorem C4_warning_pairing_witness :
    (enforce_output_rules { spoilers := "The king falls." } "").spoilers ≠ "" ∧
      (enforce_output_rules { spoilers := "The king falls." } "").warning ≠ "" :=
  ⟨by decide, C4_warning_pairing { spoilers := "The king falls." } "" (by decide)⟩

/-- C5, counterexample.  `rPlotLeak` satisfies P1 (trigger-free
`no_spoilers`), P2 (no spoilers, vacuously), P3 (the schema is closed by
construction) and P4 (non-empty topic), yet applying the enforcer twice
differs from applying it once: the first pass re-exposes `dies`, the second
pass then moves the field. -/
theorem C5_counterexample :
    (containsTrigger rPlotLeak.no_spoilers = false ∧ rPlotLeak.spoilers = "" ∧
      rPlotLeak.topic ≠ "") ∧
    enforce_output_rules (enforce_output_rules rPlotLeak "") "" ≠
      enforce_output_rules rPlotLeak "" := by
  constructor
  · refine ⟨by decide, rfl, by decide⟩
  · decide

/-- C5, amended.  `enforce_output_rules` is idempotent on records satisfying
P1 (trigger-free `no_spoilers`), P2 (spoilers imply warning), P3 (schema
closure, automatic here) and P4 (non-empty topic) whose topic is moreover not
`"plot"`; for `"plot"` records the re-filter can break idempotence. -/
theorem C5_idempotent_amended (r : Response) (q : String)
    (h1 : containsTrigger r.no_spoilers = false)
    (h2 : r.spoilers ≠ "" → r.warning ≠ "")
    (h3 : r.topic ≠ "") (h4 : r.topic ≠ "plot") :
    enforce_output_rules (enforce_output_rules r q) q = enforce_output_rules r q := by
  have e1 := enforce_eq_of_stable r q h1 h2 (overrideTopic_ne_empty _ _ h3)
    (overrideTopic_ne_plot _ _ h4)
  rw [e1]
  have e2 := enforce_eq_of_stable { r with topic := overrideTopic r.topic q } q h1 h2
    (by rw [show ({ r with topic := overrideTopic r.topic q } : Response).topic =
          overrideTopic r.topic q from rfl, overrideTopic_idem]
        exact overrideTopic_ne_empty _ _ h3)
    (by rw [show ({ r with topic := overrideTopic r.topic q } : Response).topic =
          overrideTopic r.topic q from rfl, overrideTopic_idem]
        exact overrideTopic_ne_plot _ _ h4)
  rw [e2]
  rw [show ({ r with topic := overrideTopic r.topic q } : Response).topic =
    overrideTopic r.topic q from rfl, overrideTopic_idem]

/-- Witness for C5 (amended): a clean `"tips"` record is a fixed point of a
second enforcement pass. -/
theorem C5_idempotent_amended_witness :
    enforce_output_rules (enforce_output_rules { topic := "tips", game_tips := "Dodge." } "x") "x" =
      enforce_output_rules { topic := "tips", game_tips := "Dodge." } "x" :=
  C5_idempotent_amended { topic := "tips", game_tips := "Dodge." } "x"
    (by decide) (by decide) (by decide) (by decide)

/-- C8, counterexample.  The claim asserts the play-length override applies
only when the primary keyword classification left the topic empty or
`"summary"`, and that a primary assignment such as `"tips"` (query containing
`beat`) is never displaced.  For the query `"how long to beat Malenia"` with
an empty draft topic the primary ladder classifies `"tips"`, yet the code
returns `"metadata"`: the override runs before the ladder and pre-empts it. -/
theorem C8_counterexample :
    (enforce_output_rules emptyDraft "how long to beat Malenia").topic = "metadata" ∧
      classifyTopic (pyLower "how long to beat Malenia") = "tips" := by
  constructor
  · decide
  · decide

/-- C8, amended.  Topic resolution applies the play-length override first, to
the draft's incoming topic (replacing it with `"metadata"` when a length
keyword occurs and the incoming topic is empty or `"summary"`), and runs the
primary keyword ladder only if the topic is still empty afterwards; a
non-empty incoming topic other than `"summary"` is never replaced. -/
theorem C8_override_order_amended (r : Response) (q : String) :
    (enforce_output_rules r q).topic =
      (if overrideTopic r.topic q = "" then classifyTopic (pyLower q)
       else overrideTopic r.topic q) :=
  enforce_topic_eq r q

/-- C6, counterexample.  The claim asserts the mid-section filter of
`extract_spoiler_free` uses the Policy Enforcer's trigger list.  On
`secretText` the single mid sentence contains `"secret"` — a `twist_markers`
term absent from `spoiler_trigger_words` — so the source drops it while the
claimed filter would keep it. -/
theorem C6_counterexample :
    extract_spoiler_free secretText = "Aa bb." ∧
    extract_spoiler_free_claimed secretText = "Aa bb. The secret room opens" ∧
    extract_spoiler_free secretText ≠ extract_spoiler_free_claimed secretText := by
  refine ⟨by decide, by decide, by decide⟩

/-- C6, amended.  `extract_spoiler_free` keeps the early third, scans the mid
third split on periods, discards exactly the sentences that strip to nothing
or contain (case-insensitively) a term of the source's `twist_markers` list —
which differs from the Policy Enforcer's `spoiler_trigger_words` — keeps at
most the first two survivors joined by `". "`, drops the late third, and
appends the survivors to the early third with a single space. -/
theorem C6_extraction_amended (text : String) :
    extract_spoiler_free text = extract_spoiler_free_described text := by
  simp only [extract_spoiler_free, extract_spoiler_free_described, midKeptSentences,
    collectSafeMid_eq_filter]

theorem mem_map_fst_if {α β : Type*} {c : Prop} [Decidable c] {b : α} {l : List (α × β)} :
    (b ∈ (if c then l else []).map Prod.fst) ↔ c ∧ b ∈ l.map Prod.fst := by
  split <;> simp_all

/-- C7, counterexample.  The claim says a field that trims to the empty
string is skipped entirely and no section header with empty content ever
appears; a whitespace-only `no_spoilers` nevertheless yields exactly the bare
header `**Plot:**`. -/
theorem C7_counterexample :
    pyStrip ({ topic := "gameplay", no_spoilers := " " } : Response).no_spoilers = "" ∧
    format_response { topic := "gameplay", no_spoilers := " " } = "**Plot:**" := by
  refine ⟨by decide, by decide⟩

/-- C7, amended.  `format_response` skips a field exactly when it equals the
empty string (Python truthiness): for each empty source field the
corresponding labelled block is absent from the emitted block list.  A
whitespace-only field is not skipped — its labelled section header survives
with empty content. -/
theorem C7_composer_empty_amended (r : Response) :
    (r.summary = "" → Block.summaryB ∉ (formatBlocks r).map Prod.fst) ∧
    (r.no_spoilers = "" → Block.plotB ∉ (formatBlocks r).map Prod.fst) ∧
    (r.spoilers = "" → Block.warnB ∉ (formatBlocks r).map Prod.fst ∧
      Block.fullPlotB ∉ (formatBlocks r).map Prod.fst) ∧
    (r.lore = "" → Block.loreB ∉ (formatBlocks r).map Prod.fst) ∧
    (r.game_tips = "" → Block.tipsB ∉ (formatBlocks r).map Prod.fst) ∧
    (r.wiki_data = "" → Block.wikiB ∉ (formatBlocks r).map Prod.fst) ∧
    (r.rawg_data = "" → Block.metaTop ∉ (formatBlocks r).map Prod.fst ∧
      Block.infoBottom ∉ (formatBlocks r).map Prod.fst) ∧
    (r.game_length = "" → Block.lenTop ∉ (formatBlocks r).map Prod.fst ∧
      Block.lenBottom ∉ (formatBlocks r).map Prod.fst) := by
  refine ⟨?_, ?_, ?_, ?_, ?_, ?_, ?_, ?_⟩ <;> intro h <;>
    simp [formatBlocks, topBlocks, midBlocks, bottomBlocks, mem_map_fst_if, h]

/-- Witness for C7 (amended): a record with empty `no_spoilers` emits no
`**Plot:**` block. -/
theorem C7_composer_empty_amended_witness :
    ({ topic := "tips" } : Response).no_spoilers = "" ∧
      Block.plotB ∉ (formatBlocks { topic := "tips" }).map Prod.fst :=
  ⟨rfl, (C7_composer_empty_amended { topic := "tips" }).2.1 rfl⟩

/-- C9.  For `topic = "metadata"` the metadata line then the length line lead
the block list and nothing is emitted at the bottom; for any other topic
nothing is emitted at the top, the metadata line appears at the bottom
labelled `**Info:**`, and the length line follows only for topics outside
`{plot, spoilers}`.  A metadata-topic record whose only populated text field
is the metadata line composes to exactly that (stripped) line. -/
theorem C9_metadata_placement (r : Response) :
    (r.topic = "metadata" →
      formatBlocks r =
        ((if r.rawg_data ≠ "" then [(Block.metaTop, pyStrip r.rawg_data)] else []) ++
         (if r.game_length ≠ "" then [(Block.lenTop, pyStrip r.game_length)] else [])) ++
        midBlocks r) ∧
    (r.topic ≠ "metadata" →
      formatBlocks r =
        midBlocks r ++
        ((if r.rawg_data ≠ "" then [(Block.infoBottom, "**Info:** " ++ pyStrip r.rawg_data)]
          else []) ++
         (if r.game_length ≠ "" ∧ r.topic ≠ "plot" ∧ r.topic ≠ "spoilers" then
           [(Block.lenBottom, pyStrip r.game_length)] else []))) ∧
    (r.topic = "metadata" → r.summary = "" → r.no_spoilers = "" → r.spoilers = "" →
      r.lore = "" → r.game_tips = "" → r.wiki_data = "" → r.game_length = "" →
      format_response r = pyStrip r.rawg_data) := by
  refine ⟨fun h => ?_, fun h => ?_, fun ht h1 h2 h3 h4 h5 h6 h7 => ?_⟩
  · unfold formatBlocks topBlocks bottomBlocks
    simp [h]
  · unfold formatBlocks topBlocks bottomBlocks
    simp [h]
  · have hm : midBlocks r = [] := by
      simp [midBlocks, h1, h2, h3, h4, h5, h6]
    have hb : bottomBlocks r = [] := by
      simp [bottomBlocks, ht]
    have htop : topBlocks r =
        if r.rawg_data ≠ "" then [(Block.metaTop, pyStrip r.rawg_data)] else [] := by
      simp [topBlocks, ht, h7]
    unfold format_response formatBlocks
    rw [htop, hm, hb]
    by_cases hr : r.rawg_data = ""
    · simp only [hr]
      decide
    · rw [if_pos hr]
      by_cases hs : pyStrip r.rawg_data = ""
      · simp only [List.append_nil, List.nil_append, List.map_cons, List.map_nil,
          List.filter_cons, List.filter_nil, pyStrip_idem, hs]
        decide
      · simp only [List.append_nil, List.nil_append, List.map_cons, List.map_nil,
          List.filter_cons, List.filter_nil, pyStrip_idem]
        rw [if_pos (decide_eq_true hs)]
        show pyStrip (joinBlank [pyStrip r.rawg_data]) = pyStrip r.rawg_data
        rw [show joinBlank [pyStrip r.rawg_data] = pyStrip r.rawg_data from rfl]
        exact pyStrip_idem r.rawg_data

/-- Witness for C9: the Scenario-B record composes to exactly its metadata
line. -/
theorem C9_metadata_placement_witness :
    format_response { topic := "metadata", rawg_data := "Released: 2020" } = "Released: 2020" := by
  have h := (C9_metadata_placement { topic := "metadata", rawg_data := "Released: 2020" }).2.2
    rfl rfl rfl rfl rfl rfl rfl rfl
  rw [h]
  decide

/-- C10.  `enforce_output_rules` writes only `topic`, `no_spoilers`,
`spoilers` and `warning`: the seven remaining fields of the returned record
equal those of the input draft. -/
theorem C10_frame_fields (r : Response) (q : String) :
    (enforce_output_rules r q).summary = r.summary ∧
    (enforce_output_rules r q).game_tips = r.game_tips ∧
    (enforce_output_rules r q).lore = r.lore ∧
    (enforce_output_rules r q).rawg_data = r.rawg_data ∧
    (enforce_output_rules r q).game_length = r.game_length ∧
    (enforce_output_rules r q).wiki_data = r.wiki_data ∧
    (enforce_output_rules r q).can_be_spoiler = r.can_be_spoiler := by
  unfold enforce_output_rules
  simp [classifyStep_eq, lengthOverrideStep_eq]

end Chatbot
